import Mathlib

/-!
The voice pipeline and the update handler of `main.go` (wit-ai-bot).

A shallow embedding of `downloadFile`, `oggToMp3`, `speechToText` and of the
callback that `main` hands to `StartMonitoringUpdates`.

* A Go `error` value is an `Option String`: `none` is `nil`, `some d` is an
  error whose `Error()` text is `d`.
* Every call that leaves the program (filesystem, HTTP, the ffmpeg process,
  wit.ai, the Telegram client) is answered by a field of `Env` and recorded,
  in program order, in a trace of `Event`s.
* `log.Printf` only writes to the process log and is not recorded.
-/

namespace WitAiBot

/-- A Go `error`: `none` is `nil`, `some d` carries the description `d`. -/
abbrev GoError := Option String

/-- Constant `TempDir` of `main.go`. -/
def TempDir : String := "/tmp"

/-- The chat actions of the Telegram client; the source only uses
`bot.ChatActionTyping`. -/
inductive ChatAction where
  | typing
  deriving DecidableEq, Repr

/-- The file description that `GetFile` returns and `GetFileUrl` consumes; the
program only passes it through. -/
structure FileObject where
  FileId : String
  deriving DecidableEq, Repr

/-- What the handler reads of an API answer: `Ok`, `Description` (a pointer,
so possibly nil) and `Result` (a pointer, so possibly nil). -/
structure ApiResult (α : Type) where
  Ok : Bool
  Description : Option String
  Result : Option α

/-- What `speechToText` reads of the wit.ai answer: the `Text` pointer. -/
structure WitResult where
  Text : Option String
  deriving DecidableEq, Repr

/-- Field `Voice` of a message: the source reads `FileId`. -/
structure Voice where
  FileId : String
  deriving DecidableEq, Repr

/-- A Telegram message: the source reads `Chat.Id` and `Voice` (a pointer). -/
structure Message where
  ChatId : Int
  Voice : Option Voice
  deriving DecidableEq, Repr

/-- A Telegram update: the source reads `Message` (a pointer). -/
structure Update where
  Message : Option Message
  deriving DecidableEq, Repr

/-- Modelled from the spec: method `HasMessage` of the Telegram client, which
is not part of the sources; the message of an update is optional and the
method tells whether it is there. -/
def Update.HasMessage (u : Update) : Bool := u.Message.isSome

/-- Modelled from the spec: method `HasVoice` of the Telegram client, which is
not part of the sources; the voice attachment of a message is optional and
the method tells whether it is there. -/
def Message.HasVoice (m : Message) : Bool := m.Voice.isSome

/-- The calls that leave the program, with their arguments. -/
inductive Event where
  | tempFile (dir pfx : String)
  | httpGet (url : String)
  | ioCopy (path : String)
  | closeBody (url : String)
  | closeFile (path : String)
  | exec (name : String) (args : List String)
  | querySpeechMp3 (path : String)
  | remove (path : String)
  | sendChatAction (chat : Int) (action : ChatAction)
  | getFile (fileId : String)
  | getFileUrl (file : FileObject)
  | sendMessage (chat : Int) (text : String)
  deriving DecidableEq, Repr

/-- The answers of the outside world to the calls of the program. -/
structure Env where
  /-- Answer of `ioutil.TempFile dir pfx`: the name of the created file, or an error. -/
  tempFile : String → String → Except String String
  /-- Answer of `http.Get url`: a response, or an error. -/
  httpGet : String → GoError
  /-- Answer of `io.Copy file response.Body` for the file at the given path. -/
  ioCopy : String → GoError
  /-- Answer of `cmd.CombinedOutput` for the command `name args...`. -/
  combinedOutput : String → List String → GoError
  /-- Answer of `w.QuerySpeechMp3 path nil "" "" 1`. -/
  querySpeechMp3 : String → Except String WitResult
  /-- Answer of `os.Remove path`. -/
  remove : String → GoError
  /-- Answer of `b.GetFile fileId`. -/
  getFile : String → ApiResult FileObject
  /-- Answer of `b.GetFileUrl file`. -/
  getFileUrl : FileObject → String
  /-- Answer of `b.SendMessage chat text {}`. -/
  sendMessage : Int → String → ApiResult Unit

/-- Computations that append to the trace of outside calls. -/
abbrev Run := StateM (List Event)

/-- Record one outside call. -/
def emit (e : Event) : Run Unit := modify (fun t => t ++ [e])

/-- Function `downloadFile`: download given url and return the downloaded path. -/
def downloadFile (env : Env) (url : String) : Run (String × GoError) := do
  let mut filepath := ""
  let mut err : GoError := none
  emit (.tempFile TempDir "downloaded_")
  match env.tempFile TempDir "downloaded_" with
  | .ok name =>
    filepath := name
    emit (.httpGet url)
    err := env.httpGet url
    if err = none then
      emit (.ioCopy filepath)
      err := env.ioCopy filepath
      -- deferred `response.Body.Close()`
      emit (.closeBody url)
    -- deferred `file.Close()`
    emit (.closeFile filepath)
  | .error e =>
    err := some e
  return (filepath, err)

/-- Function `oggToMp3`: convert .ogg to .mp3 (using ffmpeg). -/
def oggToMp3 (env : Env) (oggFilepath : String) : Run (String × GoError) := do
  let mut mp3Filepath := oggFilepath ++ ".mp3"
  let params := ["-i", oggFilepath, "-ac", "1", mp3Filepath]
  emit (.exec "ffmpeg" params)
  let err := env.combinedOutput "ffmpeg" params
  if err ≠ none then
    mp3Filepath := ""
  return (mp3Filepath, err)

/-- Function `speechToText`: download a file from given url and convert it to
a text. The variable `err` is the named result; the `err` of the
`QuerySpeechMp3` line is a new variable of the inner `if`. -/
def speechToText (env : Env) (fileUrl : String) : Run (String × GoError) := do
  let mut text := ""
  let mut err : GoError := none
  let mut oggFilepath := ""
  let mut mp3Filepath := ""
  -- download .ogg,
  (oggFilepath, err) ← downloadFile env fileUrl
  if err = none then
    -- .ogg => .mp3,
    (mp3Filepath, err) ← oggToMp3 env oggFilepath
    if err = none then
      -- .mp3 => text
      emit (.querySpeechMp3 mp3Filepath)
      match env.querySpeechMp3 mp3Filepath with
      | .ok result =>
        match result.Text with
        | some s => text := "\"" ++ s ++ "\""
        | none => pure ()
      | .error _ => pure ()
      -- delete converted file
      emit (.remove mp3Filepath)
      err := env.remove mp3Filepath
    -- delete downloaded file
    emit (.remove oggFilepath)
    err := env.remove oggFilepath
  return (text, err)

/-- How one call of the update handler ends: it returns, or it stops on the
dereference of a nil pointer. -/
inductive Outcome where
  | returned
  | nilDereference
  deriving DecidableEq, Repr

/-- The statement `if sent := b.SendMessage(chat, &message, ...); !sent.Ok`
with its log line, which dereferences `sent.Description`. -/
def sendAndLog (env : Env) (chat : Int) (message : String) : Run Outcome := do
  emit (.sendMessage chat message)
  let sent := env.sendMessage chat message
  if !sent.Ok then
    match sent.Description with
    | some _ => return .returned
    | none => return .nilDereference
  else
    return .returned

/-- The callback that `main` passes to `StartMonitoringUpdates`; `err` is the
error the monitor delivers along with the update. -/
def handleUpdate (env : Env) (u : Update) (err : GoError) : Run Outcome := do
  if err = none && u.HasMessage then
    match u.Message with
    | none => return .nilDereference
    | some m =>
      emit (.sendChatAction m.ChatId .typing) -- typing...
      if m.HasVoice then -- when voice is received,
        match m.Voice with
        | none => return .nilDereference
        | some voice =>
          emit (.getFile voice.FileId)
          let sent := env.getFile voice.FileId
          if sent.Ok then
            match sent.Result with
            | none => return .nilDereference
            | some file =>
              emit (.getFileUrl file)
              let (message, err) ← speechToText env (env.getFileUrl file)
              match err with
              | none =>
                let mut message := message
                if message.utf8ByteSize ≤ 0 then
                  message := "Failed to analyze your voice."
                sendAndLog env m.ChatId message
              | some e =>
                sendAndLog env m.ChatId ("Failed to analyze your voice: " ++ e)
          else
            return .returned
      else -- otherwise,
        sendAndLog env m.ChatId "Let me hear your voice."
  else
    return .returned

/-- The messages handed to `SendMessage` in a trace, in order. -/
def sentMessages : List Event → List (Int × String)
  | [] => []
  | .sendMessage chat text :: t => (chat, text) :: sentMessages t
  | _ :: t => sentMessages t

/-- An environment in which every call succeeds and wit.ai answers `text`. -/
def okEnv (text : Option String) : Env where
  tempFile := fun _ _ => .ok "/tmp/downloaded_1"
  httpGet := fun _ => none
  ioCopy := fun _ => none
  combinedOutput := fun _ _ => none
  querySpeechMp3 := fun _ => .ok ⟨text⟩
  remove := fun _ => none
  getFile := fun id => ⟨true, none, some ⟨id⟩⟩
  getFileUrl := fun f => "https://api.telegram.org/file/bot/" ++ f.FileId
  sendMessage := fun _ _ => ⟨true, none, some ()⟩

/-- The ffmpeg binary cannot be started; everything else succeeds. -/
def envNoFfmpeg : Env :=
  { okEnv (some "hi") with
    combinedOutput := fun _ _ => some "exec: ffmpeg: executable file not found in $PATH" }

/-- The recognition call fails; everything else succeeds. -/
def envWitFails : Env :=
  { okEnv none with querySpeechMp3 := fun _ => .error "wit.ai: request failed with status 500" }

/-- The removal of the downloaded file fails; everything else succeeds and
wit.ai answers `text`. -/
def envRemoveOggFails (text : Option String) : Env :=
  { okEnv text with
    remove := fun p =>
      if p = "/tmp/downloaded_1" then some "remove /tmp/downloaded_1: permission denied"
      else none }

/-- The recognition call and the removal of the converted file fail;
everything else succeeds. -/
def envWitAndRemoveMp3Fail : Env :=
  { okEnv none with
    querySpeechMp3 := fun _ => .error "wit.ai: request failed with status 500"
    remove := fun p =>
      if p = "/tmp/downloaded_1.mp3" then some "remove /tmp/downloaded_1.mp3: permission denied"
      else none }

/-- The temporary file is created and the HTTP fetch fails. -/
def envFetchFails : Env :=
  { okEnv (some "hi") with httpGet := fun _ => some "Get: dial tcp: connection refused" }

/-- The file lookup of the Telegram client fails. -/
def envLookupFails : Env :=
  { okEnv (some "hi") with
    getFile := fun _ => ⟨false, some "Bad Request: invalid file_id", none⟩ }

/-- An update with a voice message from chat 42. -/
def voiceUpdate : Update := ⟨some ⟨42, some ⟨"voice-1"⟩⟩⟩

/-- An update with a message without voice from chat 42. -/
def textUpdate : Update := ⟨some ⟨42, none⟩⟩

/-- The url that `okEnv` gives for the voice of `voiceUpdate`. -/
def voiceUrl : String := "https://api.telegram.org/file/bot/voice-1"

/-- The value a computation returns (the answers of the outside world do not
depend on the trace, so neither does the value). -/
def valueOf {α : Type} (x : Run α) : α := (x.run []).1

/-- The outside calls a computation makes, in order. -/
def traceOf {α : Type} (x : Run α) : List Event := (x.run []).2


/-! ## How the two helpers of the pipeline behave -/

/-- The download returns a nil error exactly when the temporary file is
created, the fetch succeeds and the copy succeeds; the path is the name of
the created file. -/
theorem downloadFile_ok_iff (env : Env) (url ogg : String) :
    valueOf (downloadFile env url) = (ogg, none) ↔
      env.tempFile TempDir "downloaded_" = .ok ogg ∧ env.httpGet url = none ∧
        env.ioCopy ogg = none := by
  unfold valueOf downloadFile emit
  cases h1 : env.tempFile TempDir "downloaded_" with
  | error e => simp [StateT.run, bind, StateT.bind, modify, modifyGet, MonadStateOf.modifyGet,
      StateT.modifyGet, pure, StateT.pure, h1]
  | ok name =>
    cases h2 : env.httpGet url with
    | some e => simp [StateT.run, bind, StateT.bind, modify, modifyGet, MonadStateOf.modifyGet,
        StateT.modifyGet, pure, StateT.pure, h1, h2]
    | none =>
      simp [StateT.run, bind, StateT.bind, modify, modifyGet, MonadStateOf.modifyGet,
        StateT.modifyGet, pure, StateT.pure, h1, h2]
      rintro rfl
      rfl

/-- The transcoding returns a nil error exactly when the ffmpeg command
succeeds; the path is then the input path followed by `.mp3`. -/
theorem oggToMp3_ok_iff (env : Env) (ogg mp3 : String) :
    valueOf (oggToMp3 env ogg) = (mp3, none) ↔
      mp3 = ogg ++ ".mp3" ∧
        env.combinedOutput "ffmpeg" ["-i", ogg, "-ac", "1", ogg ++ ".mp3"] = none := by
  unfold valueOf oggToMp3 emit
  cases h : env.combinedOutput "ffmpeg" ["-i", ogg, "-ac", "1", ogg ++ ".mp3"] with
  | some e => simp [StateT.run, bind, StateT.bind, modify, modifyGet, MonadStateOf.modifyGet,
      StateT.modifyGet, pure, StateT.pure, h]
  | none =>
    simp [StateT.run, bind, StateT.bind, modify, modifyGet, MonadStateOf.modifyGet,
      StateT.modifyGet, pure, StateT.pure, h]
    exact eq_comm

/-- The transcoding returns the error of the ffmpeg command, with an empty
path. -/
theorem oggToMp3_error_iff (env : Env) (ogg mp3 e : String) :
    valueOf (oggToMp3 env ogg) = (mp3, some e) ↔
      mp3 = "" ∧
        env.combinedOutput "ffmpeg" ["-i", ogg, "-ac", "1", ogg ++ ".mp3"] = some e := by
  unfold valueOf oggToMp3 emit
  cases h : env.combinedOutput "ffmpeg" ["-i", ogg, "-ac", "1", ogg ++ ".mp3"] with
  | some e => simp [StateT.run, bind, StateT.bind, modify, modifyGet, MonadStateOf.modifyGet,
      StateT.modifyGet, pure, StateT.pure, h]; intro _; exact eq_comm
  | none =>
    simp [StateT.run, bind, StateT.bind, modify, modifyGet, MonadStateOf.modifyGet,
      StateT.modifyGet, pure, StateT.pure, h]

/-- After a successful download the error that `speechToText` returns is the
answer of the removal of the downloaded file, whatever happened in between. -/
theorem speechToText_error_eq_remove (env : Env) (fileUrl ogg : String)
    (hd : valueOf (downloadFile env fileUrl) = (ogg, none)) :
    (valueOf (speechToText env fileUrl)).2 = env.remove ogg := by
  obtain ⟨h1, h2, h3⟩ := (downloadFile_ok_iff env fileUrl ogg).1 hd
  unfold valueOf speechToText downloadFile oggToMp3 emit
  cases h4 : env.combinedOutput "ffmpeg" ["-i", ogg, "-ac", "1", ogg ++ ".mp3"] with
  | some e => simp [StateT.run, bind, StateT.bind, modify, modifyGet, MonadStateOf.modifyGet,
      StateT.modifyGet, pure, StateT.pure, h1, h2, h3, h4]
  | none =>
    cases h5 : env.querySpeechMp3 (ogg ++ ".mp3") with
    | error e => simp [StateT.run, bind, StateT.bind, modify, modifyGet, MonadStateOf.modifyGet,
        StateT.modifyGet, pure, StateT.pure, h1, h2, h3, h4, h5]
    | ok r =>
      cases h6 : r.Text <;> simp [StateT.run, bind, StateT.bind, modify, modifyGet, MonadStateOf.modifyGet,
        StateT.modifyGet, pure, StateT.pure, h1, h2, h3, h4, h5, h6]

/-- When the download fails, `speechToText` returns its error with an empty
text and makes no further outside call. -/
theorem speechToText_download_error (env : Env) (fileUrl path e : String)
    (hd : valueOf (downloadFile env fileUrl) = (path, some e)) :
    valueOf (speechToText env fileUrl) = ("", some e) ∧
      traceOf (speechToText env fileUrl) = traceOf (downloadFile env fileUrl) := by
  revert hd
  unfold valueOf traceOf speechToText downloadFile emit
  cases h1 : env.tempFile TempDir "downloaded_" with
  | error e1 => simp [StateT.run, bind, StateT.bind, modify, modifyGet, MonadStateOf.modifyGet,
      StateT.modifyGet, pure, StateT.pure, h1]
  | ok name =>
    cases h2 : env.httpGet fileUrl with
    | some e2 => simp [StateT.run, bind, StateT.bind, modify, modifyGet, MonadStateOf.modifyGet,
        StateT.modifyGet, pure, StateT.pure, h1, h2]
    | none =>
      cases h3 : env.ioCopy name with
      | some e3 => simp [StateT.run, bind, StateT.bind, modify, modifyGet, MonadStateOf.modifyGet,
          StateT.modifyGet, pure, StateT.pure, h1, h2, h3]
      | none => simp [StateT.run, bind, StateT.bind, modify, modifyGet, MonadStateOf.modifyGet,
          StateT.modifyGet, pure, StateT.pure, h1, h2, h3]

/-- A quoted text is never empty. -/
theorem quoted_not_empty (t : String) : ¬ ("\"" ++ t ++ "\"").utf8ByteSize ≤ 0 := by
  have h : ("\"" ++ t ++ "\"").data = '"' :: (t.data ++ ['"']) := by
    simp [String.data_append]
  have h2 : ("\"" ++ t ++ "\"").utf8ByteSize = String.utf8Len ('"' :: (t.data ++ ['"'])) := by
    rw [← h]; rfl
  rw [h2, String.utf8Len_cons]
  have := Char.utf8Size_pos '"'
  omega

/-- A quoted text is not the fixed message of the handler. -/
theorem quoted_ne_fixed (t : String) : "\"" ++ t ++ "\"" ≠ "Failed to analyze your voice." := by
  intro h
  have h2 := congrArg String.data h
  simp [String.data_append] at h2

/-! ## The claims -/

/-- C1 (evaluation of the code): the download succeeds and ffmpeg cannot be
started, so `oggToMp3` returns its error; the removal of the downloaded file
succeeds and `speechToText` returns the empty text with a nil error, and the
handler replies with the fixed message of the empty text, without the
description of the transcoding error. -/
theorem C1_transcode_error_dropped :
    valueOf (downloadFile envNoFfmpeg voiceUrl) = ("/tmp/downloaded_1", none) ∧
    valueOf (oggToMp3 envNoFfmpeg "/tmp/downloaded_1") =
      ("", some "exec: ffmpeg: executable file not found in $PATH") ∧
    valueOf (speechToText envNoFfmpeg voiceUrl) = ("", none) ∧
    sentMessages (traceOf (handleUpdate envNoFfmpeg voiceUpdate none)) =
      [(42, "Failed to analyze your voice.")] := by
  decide

/-- C2 (evaluation of the code): download and transcoding succeed and the
recognition call returns an error; `speechToText` returns the empty text with
a nil error, and the handler replies with the fixed message of the empty
text, the reply of the path without error. -/
theorem C2_recognition_error_dropped :
    valueOf (downloadFile envWitFails voiceUrl) = ("/tmp/downloaded_1", none) ∧
    valueOf (oggToMp3 envWitFails "/tmp/downloaded_1") = ("/tmp/downloaded_1.mp3", none) ∧
    envWitFails.querySpeechMp3 "/tmp/downloaded_1.mp3" =
      .error "wit.ai: request failed with status 500" ∧
    valueOf (speechToText envWitFails voiceUrl) = ("", none) ∧
    sentMessages (traceOf (handleUpdate envWitFails voiceUpdate none)) =
      [(42, "Failed to analyze your voice.")] :=
  ⟨by decide, by decide, rfl, by decide, by decide⟩

/-- C3 (evaluation of the code): download, transcoding and recognition succeed
with the text `hi`, the removal of the converted file succeeds and the
removal of the downloaded file fails; `speechToText` returns the quoted text
together with the error of that removal, and the handler replies with the
failure message that embeds it. -/
theorem C3_removal_error_returned :
    (envRemoveOggFails (some "hi")).querySpeechMp3 "/tmp/downloaded_1.mp3" = .ok ⟨some "hi"⟩ ∧
    (envRemoveOggFails (some "hi")).remove "/tmp/downloaded_1.mp3" = none ∧
    (envRemoveOggFails (some "hi")).remove "/tmp/downloaded_1" =
      some "remove /tmp/downloaded_1: permission denied" ∧
    valueOf (speechToText (envRemoveOggFails (some "hi")) voiceUrl) =
      ("\"hi\"", some "remove /tmp/downloaded_1: permission denied") ∧
    sentMessages (traceOf (handleUpdate (envRemoveOggFails (some "hi")) voiceUpdate none)) =
      [(42, "Failed to analyze your voice: remove /tmp/downloaded_1: permission denied")] :=
  ⟨rfl, by decide, by decide, by decide, by decide⟩

/-- C4: when download and transcoding succeed, the outside calls of
`speechToText` are those of the download, those of the transcoding, the
recognition call, the removal of the converted file and the removal of the
downloaded file, in this order, whatever the recognition call and the two
removals answer. -/
theorem C4_both_removals_attempted (env : Env) (fileUrl ogg mp3 : String)
    (hd : valueOf (downloadFile env fileUrl) = (ogg, none))
    (ht : valueOf (oggToMp3 env ogg) = (mp3, none)) :
    traceOf (speechToText env fileUrl) =
      traceOf (downloadFile env fileUrl) ++ traceOf (oggToMp3 env ogg) ++
        [.querySpeechMp3 mp3, .remove mp3, .remove ogg] := by
  obtain ⟨h1, h2, h3⟩ := (downloadFile_ok_iff env fileUrl ogg).1 hd
  obtain ⟨rfl, h4⟩ := (oggToMp3_ok_iff env ogg mp3).1 ht
  unfold traceOf speechToText downloadFile oggToMp3 emit
  cases h5 : env.querySpeechMp3 (ogg ++ ".mp3") with
  | error e => simp [StateT.run, bind, StateT.bind, modify, modifyGet, MonadStateOf.modifyGet,
      StateT.modifyGet, pure, StateT.pure, h1, h2, h3, h4, h5]
  | ok r =>
    cases h6 : r.Text <;> simp [StateT.run, bind, StateT.bind, modify, modifyGet,
      MonadStateOf.modifyGet, StateT.modifyGet, pure, StateT.pure, h1, h2, h3, h4, h5, h6]

/-- Witness of C4: the recognition call fails and the removal of the converted
file fails, and both removals are attempted. -/
theorem C4_both_removals_attempted_witness :
    envWitAndRemoveMp3Fail.remove "/tmp/downloaded_1.mp3" =
      some "remove /tmp/downloaded_1.mp3: permission denied" ∧
    traceOf (speechToText envWitAndRemoveMp3Fail voiceUrl) =
      traceOf (downloadFile envWitAndRemoveMp3Fail voiceUrl) ++
        traceOf (oggToMp3 envWitAndRemoveMp3Fail "/tmp/downloaded_1") ++
        [.querySpeechMp3 "/tmp/downloaded_1.mp3", .remove "/tmp/downloaded_1.mp3",
          .remove "/tmp/downloaded_1"] :=
  ⟨by decide, C4_both_removals_attempted envWitAndRemoveMp3Fail voiceUrl "/tmp/downloaded_1"
    "/tmp/downloaded_1.mp3" (by decide) (by decide)⟩

/-- C5: when the download succeeds and the transcoding fails, the outside
calls of `speechToText` are those of the download, those of the transcoding
and the removal of the downloaded file, and no recognition call is among
them. -/
theorem C5_transcode_failure_cleanup (env : Env) (fileUrl ogg mp3 e : String)
    (hd : valueOf (downloadFile env fileUrl) = (ogg, none))
    (ht : valueOf (oggToMp3 env ogg) = (mp3, some e)) :
    traceOf (speechToText env fileUrl) =
        traceOf (downloadFile env fileUrl) ++ traceOf (oggToMp3 env ogg) ++ [.remove ogg] ∧
      ∀ p, Event.querySpeechMp3 p ∉ traceOf (speechToText env fileUrl) := by
  obtain ⟨h1, h2, h3⟩ := (downloadFile_ok_iff env fileUrl ogg).1 hd
  obtain ⟨rfl, h4⟩ := (oggToMp3_error_iff env ogg mp3 e).1 ht
  unfold traceOf speechToText downloadFile oggToMp3 emit
  simp [StateT.run, bind, StateT.bind, modify, modifyGet, MonadStateOf.modifyGet,
    StateT.modifyGet, pure, StateT.pure, h1, h2, h3, h4]

/-- Witness of C5: the ffmpeg binary cannot be started. -/
theorem C5_transcode_failure_cleanup_witness :
    traceOf (speechToText envNoFfmpeg voiceUrl) =
        traceOf (downloadFile envNoFfmpeg voiceUrl) ++
          traceOf (oggToMp3 envNoFfmpeg "/tmp/downloaded_1") ++ [.remove "/tmp/downloaded_1"] ∧
      ∀ p, Event.querySpeechMp3 p ∉ traceOf (speechToText envNoFfmpeg voiceUrl) :=
  C5_transcode_failure_cleanup envNoFfmpeg voiceUrl "/tmp/downloaded_1" ""
    "exec: ffmpeg: executable file not found in $PATH" (by decide) (by decide)

/-- C6 (evaluation of the code): the temporary file `/tmp/downloaded_1` is
created and the HTTP fetch fails; `speechToText` returns the error of the
fetch, runs no ffmpeg command, and its outside calls are the creation of the
file, the fetch and the closing of the file: no removal of the file is
attempted. -/
theorem C6_failed_download_not_removed :
    envFetchFails.tempFile TempDir "downloaded_" = .ok "/tmp/downloaded_1" ∧
    valueOf (speechToText envFetchFails voiceUrl) =
      ("", some "Get: dial tcp: connection refused") ∧
    traceOf (speechToText envFetchFails voiceUrl) =
      [.tempFile "/tmp" "downloaded_", .httpGet voiceUrl, .closeFile "/tmp/downloaded_1"] ∧
    Event.remove "/tmp/downloaded_1" ∉ traceOf (speechToText envFetchFails voiceUrl) :=
  ⟨rfl, by decide, by decide, by decide⟩

/-- C7 (evaluation of the code): the recognition call succeeds with an absent
text and the removal of the downloaded file fails; `speechToText` returns the
empty text together with the error of the removal, and the handler replies
with the failure message that embeds it, not with the fixed message. -/
theorem C7_absent_text_with_removal_error :
    (envRemoveOggFails none).querySpeechMp3 "/tmp/downloaded_1.mp3" = .ok ⟨none⟩ ∧
    valueOf (speechToText (envRemoveOggFails none) voiceUrl) =
      ("", some "remove /tmp/downloaded_1: permission denied") ∧
    sentMessages (traceOf (handleUpdate (envRemoveOggFails none) voiceUpdate none)) =
      [(42, "Failed to analyze your voice: remove /tmp/downloaded_1: permission denied")] :=
  ⟨rfl, by decide, by decide⟩

/-- C8: for an update with a voice message, when the file lookup, the
download, the transcoding, the recognition with a present text `t` and both
removals succeed, the handler sends exactly one message, to the chat of the
update, whose body is `t` between double quotes; the fixed message of the
empty text is sent to no chat. -/
theorem C8_quoted_reply (env : Env) (u : Update) (m : Message) (v : Voice) (f : FileObject)
    (r : WitResult) (ogg mp3 t : String)
    (hm : u.Message = some m) (hv : m.Voice = some v)
    (hok : (env.getFile v.FileId).Ok = true) (hres : (env.getFile v.FileId).Result = some f)
    (hd : valueOf (downloadFile env (env.getFileUrl f)) = (ogg, none))
    (ht : valueOf (oggToMp3 env ogg) = (mp3, none))
    (hq : env.querySpeechMp3 mp3 = .ok r) (htext : r.Text = some t)
    (hr1 : env.remove mp3 = none) (hr2 : env.remove ogg = none) :
    sentMessages (traceOf (handleUpdate env u none)) = [(m.ChatId, "\"" ++ t ++ "\"")] ∧
      ∀ chat, (chat, "Failed to analyze your voice.") ∉
        sentMessages (traceOf (handleUpdate env u none)) := by
  obtain ⟨h1, h2, h3⟩ := (downloadFile_ok_iff env _ ogg).1 hd
  obtain ⟨rfl, h4⟩ := (oggToMp3_ok_iff env ogg mp3).1 ht
  have hne := quoted_not_empty t
  have hne2 := quoted_ne_fixed t
  have key : sentMessages (traceOf (handleUpdate env u none)) =
      [(m.ChatId, "\"" ++ t ++ "\"")] := by
    unfold traceOf handleUpdate sendAndLog speechToText downloadFile oggToMp3 emit
    cases h5 : (env.sendMessage m.ChatId ("\"" ++ t ++ "\"")).Ok <;>
    cases h6 : (env.sendMessage m.ChatId ("\"" ++ t ++ "\"")).Description <;>
    simp [StateT.run, bind, StateT.bind, modify, modifyGet, MonadStateOf.modifyGet,
      StateT.modifyGet, pure, StateT.pure, Update.HasMessage, Message.HasVoice, sentMessages,
      hm, hv, hok, hres, h1, h2, h3, h4, hq, htext, hr1, hr2, hne, h5, h6]
  refine ⟨key, ?_⟩
  intro chat
  rw [key]
  simp
  intro _ h
  exact hne2 h.symm

/-- Witness of C8: the text `turn on the lights` from chat 42. -/
theorem C8_quoted_reply_witness :
    sentMessages (traceOf (handleUpdate (okEnv (some "turn on the lights")) voiceUpdate none)) =
        [(42, "\"turn on the lights\"")] ∧
      ∀ chat, (chat, "Failed to analyze your voice.") ∉
        sentMessages (traceOf (handleUpdate (okEnv (some "turn on the lights")) voiceUpdate none)) :=
  C8_quoted_reply (okEnv (some "turn on the lights")) voiceUpdate ⟨42, some ⟨"voice-1"⟩⟩
    ⟨"voice-1"⟩ ⟨"voice-1"⟩ ⟨some "turn on the lights"⟩ "/tmp/downloaded_1"
    "/tmp/downloaded_1.mp3" "turn on the lights" rfl rfl rfl rfl (by decide) (by decide) rfl rfl
    rfl rfl

/-- C9 (the claim fails): for the update of chat 42 with a message without
voice, the calls of the handler on the chat transport are a typing chat
action and then the prompt, not the prompt alone. -/
theorem C9_typing_action_also_sent :
    textUpdate.Message = some ⟨42, none⟩ ∧
    traceOf (handleUpdate (okEnv none) textUpdate none) =
      [.sendChatAction 42 .typing, .sendMessage 42 "Let me hear your voice."] ∧
    traceOf (handleUpdate (okEnv none) textUpdate none) ≠
      [.sendMessage 42 "Let me hear your voice."] :=
  ⟨rfl, by decide, by decide⟩

/-- C9 (amended): for an update that lacks a voice attachment, the outside
calls of the handler are, when the update comes without error and has a
message, the typing chat action and then the prompt `Let me hear your
voice.`, both to the chat of the message, and none otherwise; there is no
file lookup and no call of `speechToText`. -/
theorem C9_no_voice_effects (env : Env) (u : Update) (err : GoError)
    (hv : ∀ m, u.Message = some m → m.Voice = none) :
    traceOf (handleUpdate env u err) =
      match err, u.Message with
      | none, some m =>
        [.sendChatAction m.ChatId .typing, .sendMessage m.ChatId "Let me hear your voice."]
      | _, _ => [] := by
  unfold traceOf handleUpdate sendAndLog emit
  cases err with
  | some e => simp [StateT.run, pure, StateT.pure]
  | none =>
    cases hm : u.Message with
    | none => simp [StateT.run, pure, StateT.pure, Update.HasMessage, hm]
    | some m =>
      have h := hv m hm
      cases h5 : (env.sendMessage m.ChatId "Let me hear your voice.").Ok <;>
      cases h6 : (env.sendMessage m.ChatId "Let me hear your voice.").Description <;>
      simp [StateT.run, bind, StateT.bind, modify, modifyGet, MonadStateOf.modifyGet,
        StateT.modifyGet, pure, StateT.pure, Update.HasMessage, Message.HasVoice, hm, h, h5, h6]

/-- Witness of C9 (amended): the update of chat 42 with a message without
voice. -/
theorem C9_no_voice_effects_witness :
    traceOf (handleUpdate (okEnv none) textUpdate none) =
      [.sendChatAction 42 .typing, .sendMessage 42 "Let me hear your voice."] :=
  C9_no_voice_effects (okEnv none) textUpdate none (by decide)

/-- C10 (evaluation of the code): for a voice message whose file lookup fails,
the handler sends the typing chat action, makes the lookup and returns:
`speechToText` is not run and no message is sent. -/
theorem C10_lookup_failure_no_reply :
    (envLookupFails.getFile "voice-1").Ok = false ∧
    traceOf (handleUpdate envLookupFails voiceUpdate none) =
      [.sendChatAction 42 .typing, .getFile "voice-1"] ∧
    sentMessages (traceOf (handleUpdate envLookupFails voiceUpdate none)) = [] :=
  ⟨rfl, by decide, by decide⟩

end WitAiBot
